import Mathlib

/-!
Shallow embedding of `fasttrips/PathSet.py` (transit path-set costing).

Conventions of the embedding:
* pandas DataFrames become lists of structure values (one structure per row);
* float columns become `ℚ`; datetime columns become minutes-past-midnight as `ℚ`
  (the source always divides datetime differences by one minute before use);
* a NaN cell (pandas "missing") becomes `none : Option ℚ`;
* a process-fatal path (`sys.exit`, failed `assert`, raised error) makes the
  embedded function return `none`;
* `numpy.exp` is passed in as an explicit function argument `expF` so that the
  definitions stay executable; theorems instantiate it with `Real.exp`.
-/

/-! ## Constants (`PathSet` class attributes) -/

/-- Source: `PathSet.HUGE_COST` (PathSet.py line 100). -/
def HUGE_COST : ℚ := 9999

/-- Source: `PathSet.BUMP_EXPERIENCED_COST` (PathSet.py line 99). -/
def BUMP_EXPERIENCED_COST : ℚ := 999999

/-- Source: `PathSet.DIR_OUTBOUND` (PathSet.py line 73). -/
def DIR_OUTBOUND : ℕ := 1

/-- Source: `PathSet.DIR_INBOUND` (PathSet.py line 74). -/
def DIR_INBOUND : ℕ := 2

/-- Source: `PathSet.STATE_MODE_TRIP` (PathSet.py line 97): demand-mode type of onboard links. -/
def STATE_MODE_TRIP : String := "transit"

/-! ## String ordering

pandas `sort_values` on string columns orders by code points.  We embed that
order with a structurally recursive lexicographic comparison on the character
lists so that concrete comparisons evaluate in the kernel. -/

/-- Lexicographic `≤` on character lists (code-point order, as pandas sorts strings). -/
def charListLe : List Char → List Char → Bool
  | [], _ => true
  | _ :: _, [] => false
  | a :: as, b :: bs => if a < b then true else if b < a then false else charListLe as bs

/-- Code-point `≤` on strings. -/
def strLe (a b : String) : Bool := charListLe a.data b.data

/-- One column of a multi-column lexicographic sort key: compare the next
column only when this column ties. -/
def lexStep (a1 b1 : String) (rest : Bool) : Bool :=
  if a1 = b1 then rest else strLe a1 b1

/-! ## The weight table (`PathSet.WEIGHTS_DF`) -/

/-- One row of `PathSet.WEIGHTS_DF`: columns `user_class`, `demand_mode_type`,
`demand_mode`, `supply_mode`, `weight_name`, `weight_value` (PathSet.py lines 54-64). -/
structure WeightRow where
  user_class : String
  demand_mode_type : String
  demand_mode : String
  supply_mode : String
  weight_name : String
  weight_value : ℚ
deriving DecidableEq

/-- The `sort_values(by=[user_class, demand_mode_type, demand_mode, supply_mode,
weight_name])` key order of PathSet.py lines 244-248, as a boolean relation. -/
def wle (a b : WeightRow) : Bool :=
  lexStep a.user_class b.user_class
    (lexStep a.demand_mode_type b.demand_mode_type
      (lexStep a.demand_mode b.demand_mode
        (lexStep a.supply_mode b.supply_mode
          (strLe a.weight_name b.weight_name))))

/-- Relation form of `wle`, as a decidable ordering relation. -/
def wleR (a b : WeightRow) : Prop := wle a b = true

instance : DecidableRel wleR := fun a b => by unfold wleR; infer_instance

/-- Source: `PathSet.WEIGHTS_DF.sort_values(...)` of PathSet.py lines 244-248: a sort of
the weight table by the five-column key (pandas' default quicksort is modelled
by any sorted permutation; we use insertion sort, which is structurally
recursive and hence evaluable). -/
def sort_values (wdf : List WeightRow) : List WeightRow := List.insertionSort wleR wdf

/-- pandas `DataFrame.drop_duplicates()`: keep the first occurrence of each value. -/
def dropDuplicates {α : Type} [DecidableEq α] : List α → List α
  | [] => []
  | x :: xs => x :: dropDuplicates (xs.filter (· ≠ x))
termination_by l => l.length
decreasing_by
  simp only [List.length_cons]
  exact Nat.lt_succ_of_le (List.length_filter_le _ _)

/-! ## `PathSet.verify_weight_config`, capacity-constraint part (lines 224-248) -/

/-- PathSet.py line 226: the rows of the weight table whose `weight_name` is
`"at_capacity"`. -/
def at_capacity_rows (wdf : List WeightRow) : List WeightRow :=
  wdf.filter (fun r => r.weight_name == "at_capacity")

/-- PathSet.py lines 233-238: the distinct `(user_class, demand_mode,
demand_mode_type, supply_mode)` combinations of the transit-type weight rows
(column order as selected in the source; `drop_duplicates` keeps first
occurrences). -/
def transit_quads (wdf : List WeightRow) : List (String × String × String × String) :=
  dropDuplicates
    ((wdf.filter (fun r => r.demand_mode_type == STATE_MODE_TRIP)).map
      (fun r => (r.user_class, r.demand_mode, r.demand_mode_type, r.supply_mode)))

/-- PathSet.py lines 239-240: one synthesized `"at_capacity"` row per distinct
transit combination, with `weight_value = HUGE_COST`. -/
def new_at_capacity_rows (wdf : List WeightRow) : List WeightRow :=
  (transit_quads wdf).map (fun q =>
    { user_class := q.1, demand_mode := q.2.1, demand_mode_type := q.2.2.1,
      supply_mode := q.2.2.2, weight_name := "at_capacity", weight_value := HUGE_COST })

/-- PathSet.py lines 224-248, the `capacity_constraint` branch of
`PathSet.verify_weight_config`: if any `"at_capacity"` row pre-exists, the
accumulated error string becomes non-empty and the process exits fatally at
line 252 (`none`); otherwise the synthesized rows are concatenated onto the
table and the table is re-sorted by the five-column key. -/
def verify_weight_config_capacity (wdf : List WeightRow) : Option (List WeightRow) :=
  if (at_capacity_rows wdf).length > 0 then none
  else some (sort_values (wdf ++ new_at_capacity_rows wdf))

/-- The `(traveler_class, demand_mode, supply_mode)` triple of a weight row. -/
def row_triple (r : WeightRow) : String × String × String :=
  (r.user_class, r.demand_mode, r.supply_mode)

/-! ## `PathSet.verify_weight_config`, output-file part (lines 254-267) -/

/-- A weight row together with the numeric supply-mode code added at
PathSet.py lines 255-258. -/
structure WeightRowNum where
  user_class : String
  demand_mode_type : String
  demand_mode : String
  supply_mode : String
  supply_mode_num : Int
  weight_name : String
  weight_value : ℚ
deriving DecidableEq

/-- Modelled from the spec: `Routes.add_numeric_mode_id` (called at PathSet.py
line 255) is not part of this repository's sources; per the spec it replaces
each `supply_mode` by its numeric code, so we model it as adding the numeric
code given by a supplied mapping `mode_num`, preserving row order. -/
def add_numeric_mode_id (mode_num : String → Int) (wdf : List WeightRow) : List WeightRowNum :=
  wdf.map (fun r =>
    { user_class := r.user_class, demand_mode_type := r.demand_mode_type,
      demand_mode := r.demand_mode, supply_mode := r.supply_mode,
      supply_mode_num := mode_num r.supply_mode, weight_name := r.weight_name,
      weight_value := r.weight_value })

/-- The header line written by `to_csv` (PathSet.py lines 260-267: `to_csv` is
called with `index=False` but with the default `header=True`, so the column
names are written first). -/
def output_weights_header : List String :=
  ["user_class", "demand_mode_type", "demand_mode", "supply_mode_num",
   "weight_name", "weight_value"]

/-- The fields of one data line of the intermediate weights file: the columns
selected at PathSet.py lines 261-266 (with `supply_mode_num` in place of
`supply_mode`).  `render` stands for pandas' float formatting of the
`weight_value` cell. -/
def output_weights_fields (render : ℚ → String) (r : WeightRowNum) : List String :=
  [r.user_class, r.demand_mode_type, r.demand_mode, toString r.supply_mode_num,
   r.weight_name, render r.weight_value]

/-- pandas `to_csv(..., sep=" ")`: each row becomes its fields joined by single spaces. -/
def to_csv_space (rows : List (List String)) : List String :=
  rows.map (fun fs => String.intercalate (" ") fs)

/-- The lines of `ft_intermediate_weights.txt` as written at PathSet.py lines
260-267 for a given final weight table: header line first, then one line per
row in table order. -/
def output_weights_file (render : ℚ → String) (mode_num : String → Int)
    (wdf : List WeightRow) : List String :=
  to_csv_space (output_weights_header ::
    (add_numeric_mode_id mode_num wdf).map (output_weights_fields render))

/-- Source: `PathSet.verify_weight_config` (capacity-constraint branch plus the file
write): the weight table surviving validation is serialized; a pre-existing
`"at_capacity"` row is process-fatal.  With `capacity_constraint = false` the
table is written unchanged (no sort happens anywhere else in the function). -/
def verify_weight_config_output (render : ℚ → String) (mode_num : String → Int)
    (capacity_constraint : Bool) (wdf : List WeightRow) : Option (List String) :=
  if capacity_constraint then
    (verify_weight_config_capacity wdf).map (output_weights_file render mode_num)
  else some (output_weights_file render mode_num wdf)

/-- The claimed shape of the intermediate weights file, following the spec's
words ("space-delimited, header-less, sorted by (traveler_class, mode_category,
demand_mode, numeric supply mode, weight_name)"); written only to be compared
against `verify_weight_config_output`. -/
def claimed_output_weights_file (render : ℚ → String) (mode_num : String → Int)
    (wdf : List WeightRow) : List String :=
  to_csv_space
    ((List.insertionSort
        (fun a b : WeightRowNum =>
          (lexStep a.user_class b.user_class
            (lexStep a.demand_mode_type b.demand_mode_type
              (lexStep a.demand_mode b.demand_mode
                (if a.supply_mode_num = b.supply_mode_num then
                  strLe a.weight_name b.weight_name
                 else decide (a.supply_mode_num ≤ b.supply_mode_num))))) = true)
        (add_numeric_mode_id mode_num wdf)).map (output_weights_fields render))

/-! ## `PathSet.calculate_cost`: per-category variable resolution -/

/-- PathSet.py lines 615-628: the four sequential `.loc` assignments that
resolve the `"preferred_delay_min"` variable on access/egress cost rows.
`v` is the `var_value` resolved so far (from the walk/drive impedance join);
all times are minutes.  For the `arrival` time target the egress value is the
preferred arrival time *minus* the link's B time; for the `departure` target
the access value is the link's A time minus the preferred departure time. -/
def resolve_preferred_delay (v : Option ℚ) (weight_name linkmode time_target : String)
    (pref_arrival_min pax_B_time_min pax_A_time_min pref_departure_min : ℚ) : Option ℚ :=
  let v := if weight_name == "preferred_delay_min" && linkmode == "access"
              && time_target == "arrival" then some 0 else v
  let v := if weight_name == "preferred_delay_min" && linkmode == "egress"
              && time_target == "arrival" then some (pref_arrival_min - pax_B_time_min) else v
  let v := if weight_name == "preferred_delay_min" && linkmode == "access"
              && time_target == "departure" then some (pax_A_time_min - pref_departure_min) else v
  let v := if weight_name == "preferred_delay_min" && linkmode == "egress"
              && time_target == "departure" then some 0 else v
  v

/-- One access/egress impedance table after the endpoint remap of PathSet.py
lines 571-580: keyed by `(A_id_num, supply_mode_num, B_id_num)`, with its
numeric columns by name, together with the supply-mode-number list
(`TAZ.WALK_MODE_NUMS` / `TAZ.DRIVE_MODE_NUMS`) the table is relevant for. -/
structure AccEgrTable where
  mode_nums : List Int
  colNames : List String
  rows : List ((Int × Int × Int) × List (String × ℚ))

/-- The value of column `col` for the access/egress link keyed
`(a, sm, b)`; `none` is pandas' NaN for an unmatched left merge. -/
def accegr_lookup (tbl : AccEgrTable) (a sm b : Int) (col : String) : Option ℚ :=
  match tbl.rows.find? (fun e => e.1 == (a, sm, b)) with
  | none => none
  | some e => e.2.lookup col

/-- PathSet.py lines 553-602: for each access/egress table (walk, then drive;
bike is skipped as unsupported) and each of its numeric columns, a cost row
whose `weight_name` equals the column name and whose supply-mode number is in
the table's mode list takes that column's merged value as `var_value`. -/
def resolve_accegr_join_var (tables : List AccEgrTable) (weight_name : String)
    (supply_mode_num A_id_num B_id_num : Int) : Option ℚ :=
  tables.foldl (fun v tbl =>
    tbl.colNames.foldl (fun v c =>
      if weight_name == c && tbl.mode_nums.contains supply_mode_num then
        accegr_lookup tbl A_id_num supply_mode_num B_id_num c
      else v) v) none

/-- PathSet.py lines 648-653, the `at_capacity` indicator column: 1.0 iff the
overcap indicator is ≥ 0 and (when the bump-stop-boarded column exists at all)
the traveler is not recorded with `bumpstop_boarded == 1`, else 0.0. -/
def at_capacity_indicator (has_bumpstop_boarded : Bool)
    (overcap bump_stop_boarded : ℚ) : ℚ :=
  if has_bumpstop_boarded then
    (if 0 ≤ overcap ∧ bump_stop_boarded ≠ 1 then 1 else 0)
  else
    (if 0 ≤ overcap then 1 else 0)

/-- PathSet.py lines 641-658: variable resolution for transit (in-vehicle)
cost rows, in source order: `in_vehicle_time_min`, `wait_time_min`,
`at_capacity`, `overcap`, then the clip of a negative `overcap` value to 0. -/
def resolve_trip_var (has_bumpstop_boarded : Bool) (weight_name : String)
    (board_time_min alight_time_min pax_A_time_min overcap bump_stop_boarded : ℚ) :
    Option ℚ :=
  let v : Option ℚ := none
  let v := if weight_name == "in_vehicle_time_min" then
             some (alight_time_min - board_time_min) else v
  let v := if weight_name == "wait_time_min" then
             some (board_time_min - pax_A_time_min) else v
  let v := if weight_name == "at_capacity" then
             some (at_capacity_indicator has_bumpstop_boarded overcap bump_stop_boarded) else v
  let v := if weight_name == "overcap" then some overcap else v
  let v := if weight_name == "overcap" && decide ((v.getD 0) < 0) then some 0 else v
  v

/-- The transfer impedance table (`transfers_df`): keyed by
`(from_stop_num, to_stop_num)`, with its numeric columns by name. -/
structure TransferTable where
  colNames : List String
  rows : List ((Int × Int) × List (String × ℚ))

/-- The value of numeric column `col` for the transfer `(a, b)`;
`none` is pandas' NaN for an unmatched left merge. -/
def transfer_lookup (tbl : TransferTable) (a b : Int) (col : String) : Option ℚ :=
  match tbl.rows.find? (fun e => e.1 == (a, b)) with
  | none => none
  | some e => e.2.lookup col

/-- PathSet.py lines 670-689: variable resolution for transfer cost rows, in
source order: `walk_time_min` from the link time, then any numeric column of
`transfers_df` by name match (an unmatched merge writes NaN), then the
zero-length-transfer override to 0 for every weight except
`transfer_penalty`, then the default `transfer_penalty = 1.0` where still
unresolved. -/
def resolve_transfer_var (tbl : TransferTable) (weight_name : String)
    (A_id_num B_id_num : Int) (link_time_min : ℚ) : Option ℚ :=
  let v : Option ℚ := none
  let v := if weight_name == "walk_time_min" then some link_time_min else v
  let v := tbl.colNames.foldl (fun v c =>
    if weight_name == c then transfer_lookup tbl A_id_num B_id_num c else v) v
  let v := if weight_name != "transfer_penalty" && A_id_num == B_id_num then some 0 else v
  let v := if weight_name == "transfer_penalty" && v.isNone then some 1 else v
  v

/-! ## `PathSet.calculate_cost`: per-row cost, link and path sums -/

/-- One row of the reassembled `cost_df` (PathSet.py lines 705-724), reduced
to the columns the cost computation reads. -/
structure CostRow where
  trip_list_id_num : ℕ
  pf_path_num : ℕ
  pf_link_num : ℕ
  var_value : ℚ
  weight_value : ℚ
  missed_xfer : ℚ
  bump_iter : Int
deriving DecidableEq

/-- PathSet.py lines 728-735: per-weight-row cost `var_value * weight_value`,
then the missed-transfer override to `HUGE_COST`, then the bump-iteration
override to `HUGE_COST`. -/
def sim_cost (r : CostRow) : ℚ :=
  let c := r.var_value * r.weight_value
  let c := if r.missed_xfer = 1 then HUGE_COST else c
  let c := if 0 ≤ r.bump_iter then HUGE_COST else c
  c

/-- The `(trip_list_id_num, pathnum, linknum)` group key of PathSet.py
lines 743-749. -/
def link_key (r : CostRow) : ℕ × ℕ × ℕ :=
  (r.trip_list_id_num, r.pf_path_num, r.pf_link_num)

/-- PathSet.py lines 742-757: per-link cost = sum of the per-weight-row costs
in the link's group; a link with no cost rows gets NaN from the left merge
(`none`). -/
def link_cost (rows : List CostRow) (k : ℕ × ℕ × ℕ) : Option ℚ :=
  let rs := rows.filter (fun r => link_key r == k)
  if rs.isEmpty then none else some ((rs.map sim_cost).sum)

/-- PathSet.py lines 760-769: per-path cost = sum of the per-weight-row costs
across the path's links; a path with no cost rows gets NaN from the left
merge (`none`). -/
def path_cost (rows : List CostRow) (trip_list_id_num pf_path_num : ℕ) : Option ℚ :=
  let rs := rows.filter (fun r =>
    r.trip_list_id_num == trip_list_id_num && r.pf_path_num == pf_path_num)
  if rs.isEmpty then none else some ((rs.map sim_cost).sum)

/-! ## `PathSet.calculate_cost`: logsum and probabilities (lines 771-780) -/

/-- PathSet.py line 772: `logsum_component = exp(-1.0 * dispersion * cost)`.
`expF` abstracts `numpy.exp`, and the value field `K` is kept polymorphic so
the definition stays executable code; theorems instantiate `K := ℝ` and
`expF := Real.exp`. -/
def logsum_component {K : Type} [Field K] (expF : K → K) (dispersion : K) (cost : ℚ) : K :=
  expF (-1 * dispersion * (cost : K))

/-- PathSet.py lines 774-776: the logsum of a traveler-trip is the sum of its
paths' logsum components. -/
def trip_logsum {K : Type} [Field K] (expF : K → K) (dispersion : K) (costs : List ℚ) : K :=
  (costs.map (logsum_component expF dispersion)).sum

/-- PathSet.py line 780: probability of a path of cost `c` within a
traveler-trip whose paths have costs `costs`. -/
def pf_probability {K : Type} [Field K] (expF : K → K) (dispersion : K)
    (costs : List ℚ) (c : ℚ) : K :=
  logsum_component expF dispersion c / trip_logsum expF dispersion costs

/-! ## `PathSet.calculate_cost`: the whole pipeline (lines 460-805)

The pipeline is assembled from the per-category resolvers above.  Its inputs
are the path and link tables (whose rows may carry cost/probability columns
from a prior call — PathSet.py lines 476-484 drop and recompute these), the
weight table, the trip list, and the static network tables. -/

/-- One row of `trip_list_df`, reduced to the columns `calculate_cost` reads
(PathSet.py lines 491-501 and 605-613). -/
structure TripListRow where
  person_id : String
  trip_list_id_num : ℕ
  user_class : String
  access_mode : String
  egress_mode : String
  transit_mode : String
  departure_time_min : ℚ
  arrival_time_min : ℚ
  time_target : String

/-- The static tables `calculate_cost` joins against: the walk and drive
access/egress impedance tables (PathSet.py lines 553-565), the transfer
impedance table, and whether the `bumpstop_boarded` column exists on the trip
links (PathSet.py line 650). -/
structure NetworkTables where
  walk : AccEgrTable
  drive : AccEgrTable
  transfers : TransferTable
  has_bumpstop_boarded : Bool

/-- The persistent (non-recomputed) columns of one row of
`pathset_links_df`. -/
structure LinkBase where
  person_id : String
  trip_list_id_num : ℕ
  pf_path_num : ℕ
  pf_link_num : ℕ
  linkmode : String
  mode : String
  supply_mode_num : Int
  A_id_num : Int
  B_id_num : Int
  pf_A_time_min : ℚ
  pf_B_time_min : ℚ
  pf_linktime_min : ℚ
  board_time_min : ℚ
  alight_time_min : ℚ
  overcap : ℚ
  bump_stop_boarded : ℚ
  missed_xfer : ℚ
  bump_iter : Int

/-- The persistent columns of one row of `pathset_paths_df`. -/
structure PathBase where
  trip_list_id_num : ℕ
  pf_path_num : ℕ

/-- A `pathset_links_df` row: base columns plus the recomputed cost column
(`none` when absent, e.g. before the first call). -/
structure AnnLink where
  base : LinkBase
  sim_cost : Option ℚ

/-- A `pathset_paths_df` row: base columns plus the recomputed cost,
logsum-component, logsum and probability columns. -/
structure AnnPath (K : Type) where
  base : PathBase
  sim_cost : Option ℚ
  logsum_component : Option K
  logsum : Option K
  probability : Option K

/-- PathSet.py lines 507-511: the demand mode of a link, by link mode
category; any other link mode leaves the column null, which trips the assert
at line 514. -/
def demand_mode_for (t : TripListRow) (linkmode : String) : Option String :=
  if linkmode == "access" then some t.access_mode
  else if linkmode == "egress" then some t.egress_mode
  else if linkmode == STATE_MODE_TRIP then some t.transit_mode
  else if linkmode == "transfer" then some ("transfer")
  else none

/-- PathSet.py lines 528-539: the inner join of one link against the weight
table, on `(user_class, demand_mode_type = linkmode, demand_mode,
supply_mode = mode)`. -/
def matched_weights (weights : List WeightRow) (user_class demand_mode : String)
    (l : LinkBase) : List WeightRow :=
  weights.filter (fun w =>
    w.user_class == user_class && w.demand_mode_type == l.linkmode
      && w.demand_mode == demand_mode && w.supply_mode == l.mode)

/-- Variable resolution for one cost row, dispatched by link-mode category
(PathSet.py lines 542-689). -/
def var_value_for (net : NetworkTables) (t : TripListRow) (l : LinkBase)
    (weight_name : String) : Option ℚ :=
  if l.linkmode == "access" || l.linkmode == "egress" then
    resolve_preferred_delay
      (resolve_accegr_join_var [net.walk, net.drive] weight_name
        l.supply_mode_num l.A_id_num l.B_id_num)
      weight_name l.linkmode t.time_target
      t.arrival_time_min l.pf_B_time_min l.pf_A_time_min t.departure_time_min
  else if l.linkmode == STATE_MODE_TRIP then
    resolve_trip_var net.has_bumpstop_boarded weight_name
      l.board_time_min l.alight_time_min l.pf_A_time_min l.overcap l.bump_stop_boarded
  else if l.linkmode == "transfer" then
    resolve_transfer_var net.transfers weight_name l.A_id_num l.B_id_num l.pf_linktime_min
  else none

/-- The cost rows contributed by one link: the trip-list merge (PathSet.py
lines 491-501; a missing trip leaves `user_class` null, so the later inner
join against the weights matches nothing for a transfer link and the
demand-mode assert fires for the other link modes), the demand-mode
assignment (lines 507-514), the simulation-iteration-0 reset of `bump_iter`
(lines 522-523), the weight join (lines 528-539) and the variable resolution;
a still-missing variable value is the fatal "Missing var_values" error of
lines 632-703 (`none`). -/
def link_cost_rows (net : NetworkTables) (weights : List WeightRow)
    (trip_list : List TripListRow) (simulation_iteration : ℕ) (l : LinkBase) :
    Option (List CostRow) :=
  match trip_list.find? (fun t =>
      t.person_id == l.person_id && t.trip_list_id_num == l.trip_list_id_num) with
  | none => if l.linkmode == "transfer" then some [] else none
  | some t => do
    let dm ← demand_mode_for t l.linkmode
    let bi : Int := if simulation_iteration == 0 then -1 else l.bump_iter
    (matched_weights weights t.user_class dm l).mapM (fun w =>
      (var_value_for net t l w.weight_name).map (fun v =>
        ({ trip_list_id_num := l.trip_list_id_num, pf_path_num := l.pf_path_num,
           pf_link_num := l.pf_link_num, var_value := v,
           weight_value := w.weight_value, missed_xfer := l.missed_xfer,
           bump_iter := bi } : CostRow)))

/-- The reassembled `cost_df` (PathSet.py lines 705-724): all links' cost
rows; `none` if any link aborts. -/
def all_cost_rows (net : NetworkTables) (weights : List WeightRow)
    (trip_list : List TripListRow) (simulation_iteration : ℕ)
    (lb : List LinkBase) : Option (List CostRow) :=
  (lb.mapM (link_cost_rows net weights trip_list simulation_iteration)).map List.flatten

/-- Source: `PathSet.calculate_cost` computed from the persistent base columns alone:
cost rows, the link-level and path-level cost sums, and the logsum /
probability columns (PathSet.py lines 742-780; the group sums skip NaN as
pandas does, hence `filterMap`). -/
def calc_from_bases {K : Type} [Field K] (expF : K → K) (net : NetworkTables)
    (weights : List WeightRow) (trip_list : List TripListRow) (dispersion : K)
    (simulation_iteration : ℕ) (lb : List LinkBase) (pb : List PathBase) :
    Option (List (AnnPath K) × List AnnLink) :=
  (all_cost_rows net weights trip_list simulation_iteration lb).map (fun rows =>
    let links' := lb.map (fun l =>
      AnnLink.mk l (link_cost rows (l.trip_list_id_num, l.pf_path_num, l.pf_link_num)))
    let pcost := fun (p : PathBase) => path_cost rows p.trip_list_id_num p.pf_path_num
    let comp := fun (p : PathBase) => (pcost p).map (logsum_component expF dispersion)
    let lgs := fun (trip : ℕ) =>
      ((pb.filter (fun q => q.trip_list_id_num == trip)).filterMap comp).sum
    let paths' := pb.map (fun p =>
      AnnPath.mk p (pcost p) (comp p) (some (lgs p.trip_list_id_num))
        ((comp p).map (fun x => x / lgs p.trip_list_id_num)))
    (paths', links'))

/-- Source: `PathSet.calculate_cost` (PathSet.py lines 460-805): any cost/probability
columns carried by the input rows are dropped (lines 476-484) and every
output column is recomputed from the persistent base columns. -/
def calculate_cost {K : Type} [Field K] (expF : K → K) (net : NetworkTables)
    (weights : List WeightRow) (trip_list : List TripListRow) (dispersion : K)
    (simulation_iteration : ℕ) (links : List AnnLink) (paths : List (AnnPath K)) :
    Option (List (AnnPath K) × List AnnLink) :=
  calc_from_bases expF net weights trip_list dispersion simulation_iteration
    (links.map (fun l => l.base)) (paths.map (fun p => p.base))

/-! ## The `PathSet` record (lines 102-152) -/

/-- One entry of `PathSet.pathdict`: `{pf_cost, pf_probability, states}`
(PathSet.py line 121), with a path state's ten positional fields
(`STATE_IDX_*`, lines 80-89; clock values as minutes). -/
structure StopState where
  label : ℚ
  deparr : ℚ
  deparr_mode : String
  trip_id : String
  succpred : String
  seq : Int
  seq_succpred : Int
  linktime : ℚ
  cost : ℚ
  arrdep : ℚ

/-- The attributes of a `pathdict` entry. -/
structure PathInfo where
  pf_cost : ℚ
  pf_probability : ℚ
  states : List (String × StopState)

/-- The dynamically typed `PathSet.pathdict` attribute: a dict of path number
to path info after construction (line 122), but `reset` (line 146) rebinds it
to a Python *list*. -/
inductive PyPathDict where
  | dict (entries : List (ℕ × PathInfo))
  | pylist (elems : List PathInfo)

/-- Python's `len` on whatever `pathdict` currently holds. -/
def PyPathDict.len : PyPathDict → ℕ
  | .dict entries => entries.length
  | .pylist elems => elems.length

/-- The trip-list attributes a `PathSet` is constructed from
(`trip_list_dict`, PathSet.py lines 102-119; the constructor copies the whole
dict onto the instance). -/
structure TripListDict where
  person_id : String
  trip_list_id_num : ℕ
  origin_taz_id : String
  destination_taz_id : String
  time_target : String
  arrival_time_min : ℚ
  departure_time_min : ℚ

/-- The `PathSet` instance state: the copied trip-list attributes, the derived
direction and preferred time, and `pathdict`. -/
structure PathSetRec where
  trip_list : TripListDict
  direction : ℕ
  pref_time_min : ℚ
  pathdict : PyPathDict

/-- Source: `PathSet.__init__` (PathSet.py lines 102-122): direction and preferred
time from the time target (`arrival` → outbound, `departure` → inbound, any
other value raises), `pathdict` an empty dict. -/
def PathSet_init (t : TripListDict) : Option PathSetRec :=
  if t.time_target == "arrival" then
    some { trip_list := t, direction := DIR_OUTBOUND,
           pref_time_min := t.arrival_time_min, pathdict := .dict [] }
  else if t.time_target == "departure" then
    some { trip_list := t, direction := DIR_INBOUND,
           pref_time_min := t.departure_time_min, pathdict := .dict [] }
  else none

/-- Source: `PathSet.path_found` (PathSet.py lines 130-134): `len(self.pathdict) > 0`. -/
def path_found (p : PathSetRec) : Bool := decide (p.pathdict.len > 0)

/-- Source: `PathSet.num_paths` (PathSet.py lines 136-140): `len(self.pathdict)`. -/
def num_paths (p : PathSetRec) : ℕ := p.pathdict.len

/-- Source: `PathSet.reset` (PathSet.py lines 142-146): `self.pathdict = []` — the
dict is replaced by an empty Python *list*; no other attribute is touched. -/
def reset (p : PathSetRec) : PathSetRec := { p with pathdict := .pylist [] }

/-! ## Concrete example rows (used by witnesses and counterexamples) -/

/-- Example cost row: capacity-bumped (bump iteration 0), weight row 1 of link (1,0,0). -/
def cost_row_bumped_a : CostRow := ⟨1, 0, 0, 2, 3, 0, 0⟩

/-- Example cost row: capacity-bumped (bump iteration 0), weight row 2 of link (1,0,0). -/
def cost_row_bumped_b : CostRow := ⟨1, 0, 0, 5, 7, 0, 0⟩

/-- Example cost row: missed transfer, weight row 1 of link (7,1,2). -/
def cost_row_missed : CostRow := ⟨7, 1, 2, 4, 5, 1, -1⟩

/-- Example cost row: capacity-bumped (bump iteration 3), weight row 2 of link (7,1,2). -/
def cost_row_bumped_c : CostRow := ⟨7, 1, 2, 6, 8, 0, 3⟩

/-- Example weight row: a hand-authored `at_capacity` weight (conflicts with
capacity synthesis). -/
def weight_row_at_capacity : WeightRow :=
  ⟨"all", "transit", "bus", "local_bus", "at_capacity", 5⟩

/-- Example weight row: an in-vehicle-time weight for supply mode `m10`. -/
def weight_row_m10 : WeightRow :=
  ⟨"all", "transit", "bus", "m10", "in_vehicle_time_min", 1⟩

/-- Example weight row: an in-vehicle-time weight for supply mode `m2`. -/
def weight_row_m2 : WeightRow :=
  ⟨"all", "transit", "bus", "m2", "in_vehicle_time_min", 1⟩

/-- Example numeric supply-mode coding: `m10` is mode 10 and `m2` is mode 2
(numeric order disagrees with string order). -/
def mode_num_example : String → Int :=
  fun s => if s = "m10" then 10 else if s = "m2" then 2 else 0

/-- Example weight-value rendering for the output file. -/
def render_example : ℚ → String := fun _ => "w"

/-- Example `PathSet` record: outbound, preferred arrival 480 min, one path. -/
def pathset_example : PathSetRec :=
  ⟨⟨"pax1", 11, "taz_o", "taz_d", "arrival", 480, 0⟩, DIR_OUTBOUND, 480,
    .dict [(0, ⟨3, 1, []⟩)]⟩

/-! # Theorems -/

/-! ## Order lemmas for the sort key -/

theorem charListLe_total (a b : List Char) : charListLe a b = true ∨ charListLe b a = true := by
  induction a generalizing b with
  | nil => left; rfl
  | cons x xs ih =>
    cases b with
    | nil => right; rfl
    | cons y ys =>
      by_cases hxy : x < y
      · left; simp [charListLe, hxy]
      · by_cases hyx : y < x
        · right; simp [charListLe, hyx, asymm hyx]
        · rcases ih ys with h | h
          · left; simp [charListLe, hxy, hyx, h]
          · right; simp [charListLe, hxy, hyx, h]

theorem charListLe_trans (a b c : List Char) (hab : charListLe a b = true)
    (hbc : charListLe b c = true) : charListLe a c = true := by
  induction a generalizing b c with
  | nil => rfl
  | cons x xs ih =>
    match b, c with
    | [], _ => simp [charListLe] at hab
    | _ :: _, [] => simp [charListLe] at hbc
    | y :: ys, z :: zs =>
      simp only [charListLe] at hab hbc ⊢
      rcases lt_trichotomy x y with hxy | rfl | hyx
      · rcases lt_trichotomy y z with hyz | rfl | hzy
        · simp [lt_trans hxy hyz]
        · simp [hxy]
        · simp [hzy, asymm hzy] at hbc
      · rcases lt_trichotomy x z with hxz | rfl | hzx
        · simp [hxz]
        · simp only [lt_self_iff_false, if_false] at hab hbc ⊢
          exact ih _ _ hab hbc
        · simp [hzx, asymm hzx] at hbc
      · simp [hyx, asymm hyx] at hab

theorem charListLe_antisymm (a b : List Char) (hab : charListLe a b = true)
    (hba : charListLe b a = true) : a = b := by
  induction a generalizing b with
  | nil =>
    cases b with
    | nil => rfl
    | cons y ys => simp [charListLe] at hba
  | cons x xs ih =>
    cases b with
    | nil => simp [charListLe] at hab
    | cons y ys =>
      simp only [charListLe] at hab hba
      rcases lt_trichotomy x y with hxy | rfl | hyx
      · simp [hxy, asymm hxy] at hba
      · simp only [lt_self_iff_false, if_false] at hab hba
        rw [ih ys hab hba]
      · simp [hyx, asymm hyx] at hab

theorem strLe_total (a b : String) : strLe a b = true ∨ strLe b a = true :=
  charListLe_total a.data b.data

theorem strLe_trans (a b c : String) (hab : strLe a b = true) (hbc : strLe b c = true) :
    strLe a c = true :=
  charListLe_trans a.data b.data c.data hab hbc

theorem strLe_antisymm (a b : String) (hab : strLe a b = true) (hba : strLe b a = true) :
    a = b := by
  cases a; cases b
  exact congrArg String.mk (charListLe_antisymm _ _ hab hba)

theorem lexStep_trans {a1 b1 c1 : String} {r1 r2 r3 : Bool}
    (hr : r1 = true → r2 = true → r3 = true)
    (h1 : lexStep a1 b1 r1 = true) (h2 : lexStep b1 c1 r2 = true) :
    lexStep a1 c1 r3 = true := by
  unfold lexStep at h1 h2 ⊢
  by_cases e1 : a1 = b1
  · by_cases e2 : b1 = c1
    · subst e1; subst e2
      simp only [if_pos rfl] at h1 h2 ⊢
      exact hr h1 h2
    · subst e1
      rw [if_pos rfl] at h1
      rw [if_neg e2] at h2 ⊢
      exact h2
  · by_cases e2 : b1 = c1
    · subst e2
      rw [if_neg e1] at h1 ⊢
      exact h1
    · rw [if_neg e1] at h1
      rw [if_neg e2] at h2
      have hac : strLe a1 c1 = true := strLe_trans _ _ _ h1 h2
      have : a1 ≠ c1 := by
        intro h
        subst h
        exact e1 (strLe_antisymm _ _ h1 h2)
      rw [if_neg this]
      exact hac

theorem lexStep_total {a1 b1 : String} {r1 r2 : Bool} (hr : r1 = true ∨ r2 = true) :
    lexStep a1 b1 r1 = true ∨ lexStep b1 a1 r2 = true := by
  unfold lexStep
  by_cases e : a1 = b1
  · subst e
    simpa using hr
  · rw [if_neg e, if_neg (Ne.symm e)]
    exact strLe_total a1 b1

theorem wle_trans (a b c : WeightRow) (hab : wleR a b) (hbc : wleR b c) : wleR a c := by
  unfold wleR wle at *
  refine lexStep_trans (fun h1 h2 => ?_) hab hbc
  refine lexStep_trans (fun h1 h2 => ?_) h1 h2
  refine lexStep_trans (fun h1 h2 => ?_) h1 h2
  refine lexStep_trans (fun h1 h2 => ?_) h1 h2
  exact strLe_trans _ _ _ h1 h2

theorem wle_total (a b : WeightRow) : wleR a b ∨ wleR b a := by
  unfold wleR wle
  exact lexStep_total (lexStep_total (lexStep_total (lexStep_total (strLe_total _ _))))

/-! ## Lemmas about `dropDuplicates` -/

theorem mem_dropDuplicates {α : Type} [DecidableEq α] (a : α) (l : List α) :
    a ∈ dropDuplicates l ↔ a ∈ l := by
  induction l using dropDuplicates.induct with
  | case1 => simp [dropDuplicates]
  | case2 x xs ih =>
    rw [dropDuplicates]
    simp only [List.mem_cons, ih, List.mem_filter]
    constructor
    · rintro (rfl | ⟨h, _⟩)
      · exact .inl rfl
      · exact .inr h
    · rintro (rfl | h)
      · exact .inl rfl
      · by_cases hx : a = x
        · exact .inl hx
        · exact .inr ⟨h, by simpa using hx⟩

theorem nodup_dropDuplicates {α : Type} [DecidableEq α] (l : List α) :
    (dropDuplicates l).Nodup := by
  induction l using dropDuplicates.induct with
  | case1 => simp [dropDuplicates]
  | case2 x xs ih =>
    rw [dropDuplicates]
    refine List.nodup_cons.mpr ⟨?_, ih⟩
    intro hx
    have := (mem_dropDuplicates _ _).mp hx
    simp at this

/-! ## Claim C1: capacity-constraint weight synthesis -/

/-- Helper: membership in the image of a deduplicated list is membership in
the image of the original list. -/
theorem mem_map_dropDuplicates {α β : Type} [DecidableEq α] (f : α → β) (l : List α)
    (b : β) : b ∈ (dropDuplicates l).map f ↔ b ∈ l.map f := by
  simp only [List.mem_map, mem_dropDuplicates]

/-- Helper: every quadruple selected for capacity synthesis has
demand-mode type `"transit"`. -/
theorem transit_quads_dmt (wdf : List WeightRow) :
    ∀ q ∈ transit_quads wdf, q.2.2.1 = STATE_MODE_TRIP := by
  intro q hq
  have hq' := (mem_dropDuplicates _ _).mp hq
  obtain ⟨r, hr, rfl⟩ := List.mem_map.mp hq'
  have := (List.mem_filter.mp hr).2
  simpa [beq_iff_eq] using this

/-- Helper: the `at_capacity` filter of the augmented table is exactly the
synthesized rows when none pre-existed. -/
theorem filter_append_new_at_capacity (wdf : List WeightRow)
    (h : at_capacity_rows wdf = []) :
    (wdf ++ new_at_capacity_rows wdf).filter (fun r => r.weight_name == "at_capacity")
      = new_at_capacity_rows wdf := by
  rw [List.filter_append]
  have h1 : wdf.filter (fun r => r.weight_name == "at_capacity") = [] := h
  have h2 : (new_at_capacity_rows wdf).filter (fun r => r.weight_name == "at_capacity")
      = new_at_capacity_rows wdf := by
    apply List.filter_eq_self.mpr
    intro r hr
    obtain ⟨q, _, rfl⟩ := List.mem_map.mp hr
    rfl
  rw [h1, h2, List.nil_append]

/-- Helper: the `at_capacity` rows of the sorted augmented table are a
permutation of the synthesized rows. -/
theorem sorted_filter_at_capacity_perm (wdf : List WeightRow)
    (h : at_capacity_rows wdf = []) :
    List.Perm
      ((sort_values (wdf ++ new_at_capacity_rows wdf)).filter
        (fun r => r.weight_name == "at_capacity"))
      (new_at_capacity_rows wdf) := by
  have h1 := (List.perm_insertionSort wleR (wdf ++ new_at_capacity_rows wdf)).filter
    (fun r => r.weight_name == "at_capacity")
  rw [filter_append_new_at_capacity wdf h] at h1
  exact h1

/-- Helper: the synthesized rows' triples are the deduplicated quadruples'
triples. -/
theorem new_at_capacity_rows_triples (wdf : List WeightRow) :
    (new_at_capacity_rows wdf).map row_triple
      = (transit_quads wdf).map (fun q => (q.1, q.2.1, q.2.2.2)) := by
  unfold new_at_capacity_rows
  rw [List.map_map]
  rfl

/-- Claim C1: with `capacity_constraint` true, a pre-existing `"at_capacity"`
weight row is process-fatal; otherwise validation appends exactly one
`"at_capacity"` row per distinct `(traveler_class, transit demand_mode,
transit supply_mode)` triple present among transit-type weight rows, each
with value `HUGE_COST`, and re-sorts the weight table by `(user_class,
demand_mode_type, demand_mode, supply_mode, weight_name)`. -/
theorem capacity_constraint_weight_synthesis (wdf : List WeightRow) :
    (at_capacity_rows wdf ≠ [] → verify_weight_config_capacity wdf = none)
    ∧ (at_capacity_rows wdf = [] →
      ∃ out, verify_weight_config_capacity wdf = some out
        ∧ List.Perm out (wdf ++ new_at_capacity_rows wdf)
        ∧ List.Sorted wleR out
        ∧ ((out.filter (fun r => r.weight_name == "at_capacity")).map row_triple).Nodup
        ∧ (∀ tr, tr ∈ (out.filter (fun r => r.weight_name == "at_capacity")).map row_triple
            ↔ tr ∈ (wdf.filter (fun r => r.demand_mode_type == STATE_MODE_TRIP)).map row_triple)
        ∧ (∀ r ∈ out, r.weight_name = "at_capacity" → r.weight_value = HUGE_COST)) := by
  constructor
  · intro h
    unfold verify_weight_config_capacity
    rw [if_pos (List.length_pos.mpr h)]
  · intro h
    have hlen : ¬ (at_capacity_rows wdf).length > 0 := by simp [h]
    refine ⟨sort_values (wdf ++ new_at_capacity_rows wdf), ?_, ?_, ?_, ?_, ?_, ?_⟩
    · unfold verify_weight_config_capacity
      rw [if_neg hlen]
    · exact List.perm_insertionSort wleR _
    · haveI : IsTotal WeightRow wleR := ⟨wle_total⟩
      haveI : IsTrans WeightRow wleR := ⟨wle_trans⟩
      exact List.sorted_insertionSort wleR _
    · refine (((sorted_filter_at_capacity_perm wdf h).map row_triple).nodup_iff).mpr ?_
      rw [new_at_capacity_rows_triples]
      apply (nodup_dropDuplicates _).map_on
      intro q hq q' hq' heq
      have h1 := transit_quads_dmt wdf q hq
      have h2 := transit_quads_dmt wdf q' hq'
      obtain ⟨a, b, c, d⟩ := q
      obtain ⟨a', b', c', d'⟩ := q'
      simp only [Prod.mk.injEq] at heq h1 h2 ⊢
      exact ⟨heq.1, heq.2.1, h1.trans h2.symm, heq.2.2⟩
    · intro tr
      rw [(((sorted_filter_at_capacity_perm wdf h).map row_triple)).mem_iff]
      rw [new_at_capacity_rows_triples]
      unfold transit_quads
      rw [mem_map_dropDuplicates, List.map_map]
      rfl
    · intro r hr hname
      have hr' := ((List.perm_insertionSort wleR _).mem_iff).mp hr
      rcases List.mem_append.mp hr' with hw | hn
      · exfalso
        have : r ∈ at_capacity_rows wdf :=
          List.mem_filter.mpr ⟨hw, by simp [hname]⟩
        rw [h] at this
        exact List.not_mem_nil r this
      · obtain ⟨q, _, rfl⟩ := List.mem_map.mp hn
        rfl

/-- Witness for claim C1: a table with a hand-authored `at_capacity` row is
rejected. -/
theorem capacity_constraint_weight_synthesis_witness :
    at_capacity_rows [weight_row_at_capacity] ≠ []
    ∧ verify_weight_config_capacity [weight_row_at_capacity] = none :=
  ⟨by decide,
    (capacity_constraint_weight_synthesis [weight_row_at_capacity]).1 (by decide)⟩

/-! ## Claim C9: the intermediate weights file (corrected) -/

/-- Counterexample to claim C9 as stated: for a weight table with supply
modes `m10` (numeric code 10) and `m2` (numeric code 2), the file actually
written differs from the claimed header-less, numerically sorted rendering —
the source writes a header line (pandas `to_csv` default `header=True`) and
sorts only by the *string* `supply_mode` column, which puts `m10` (code 10)
before `m2` (code 2). -/
theorem output_weights_file_counterexample :
    verify_weight_config_output render_example mode_num_example true
        [weight_row_m10, weight_row_m2]
      ≠ some (claimed_output_weights_file render_example mode_num_example
        [weight_row_m10, weight_row_m2]) := by
  decide

/-- Claim C9 amended: the derived weight file contains the weight-table
columns with `supply_mode` replaced by its numeric code and is
space-delimited, but it *begins with a header line* naming those columns, and
its data rows follow in the order of the validated weight table — which the
capacity-constraint branch leaves sorted by `(user_class, demand_mode_type,
demand_mode, supply_mode as a string, weight_name)`, not by the numeric
supply-mode code. -/
theorem output_weights_file_shape (render : ℚ → String) (mode_num : String → Int)
    (wdf : List WeightRow) (h : at_capacity_rows wdf = []) :
    ∃ tbl, verify_weight_config_capacity wdf = some tbl
      ∧ List.Sorted wleR tbl
      ∧ verify_weight_config_output render mode_num true wdf
          = some (String.intercalate (" ") output_weights_header
              :: (add_numeric_mode_id mode_num tbl).map
                  (fun r => String.intercalate (" ") (output_weights_fields render r))) := by
  have hlen : ¬ (at_capacity_rows wdf).length > 0 := by simp [h]
  refine ⟨sort_values (wdf ++ new_at_capacity_rows wdf), ?_, ?_, ?_⟩
  · unfold verify_weight_config_capacity
    rw [if_neg hlen]
  · haveI : IsTotal WeightRow wleR := ⟨wle_total⟩
    haveI : IsTrans WeightRow wleR := ⟨wle_trans⟩
    exact List.sorted_insertionSort wleR _
  · unfold verify_weight_config_output verify_weight_config_capacity
    rw [if_neg hlen]
    simp [output_weights_file, to_csv_space, Function.comp]

/-- Witness for the amended claim C9 on the two-row example table. -/
theorem output_weights_file_shape_witness :
    at_capacity_rows [weight_row_m10, weight_row_m2] = []
    ∧ (∃ tbl, verify_weight_config_capacity [weight_row_m10, weight_row_m2] = some tbl
      ∧ List.Sorted wleR tbl
      ∧ verify_weight_config_output render_example mode_num_example true
            [weight_row_m10, weight_row_m2]
          = some (String.intercalate (" ") output_weights_header
              :: (add_numeric_mode_id mode_num_example tbl).map
                  (fun r => String.intercalate (" ")
                    (output_weights_fields render_example r)))) :=
  ⟨by decide,
    output_weights_file_shape render_example mode_num_example
      [weight_row_m10, weight_row_m2] (by decide)⟩

/-! ## Claim C7: `calculate_cost` is idempotent -/

/-- Helper: `calc_from_bases` annotates the given base rows, so the base
columns of its outputs are the inputs themselves. -/
theorem calc_from_bases_bases {K : Type} [Field K] (expF : K → K) (net : NetworkTables)
    (weights : List WeightRow) (trip_list : List TripListRow) (dispersion : K)
    (simulation_iteration : ℕ) (lb : List LinkBase) (pb : List PathBase)
    (r : List (AnnPath K) × List AnnLink)
    (h : calc_from_bases expF net weights trip_list dispersion simulation_iteration lb pb
      = some r) :
    r.1.map (fun p => p.base) = pb ∧ r.2.map (fun l => l.base) = lb := by
  unfold calc_from_bases at h
  obtain ⟨rows, hrows, hr⟩ := Option.map_eq_some'.mp h
  subst hr
  constructor
  · dsimp only
    rw [List.map_map]
    exact List.map_id' pb
  · dsimp only
    rw [List.map_map]
    exact List.map_id' lb

/-- Claim C7: `calculate_cost` is idempotent — run on the path/link tables
returned by a first run (same weight table, trip list, network tables,
dispersion and iteration), a second run returns exactly the same annotated
tables, because every cost/probability/logsum column is dropped and
recomputed from the persistent base columns alone. -/
theorem calculate_cost_idempotent {K : Type} [Field K] (expF : K → K)
    (net : NetworkTables) (weights : List WeightRow) (trip_list : List TripListRow)
    (dispersion : K) (simulation_iteration : ℕ) (links : List AnnLink)
    (paths : List (AnnPath K)) :
    (calculate_cost expF net weights trip_list dispersion simulation_iteration
        links paths).bind
      (fun r => calculate_cost expF net weights trip_list dispersion
        simulation_iteration r.2 r.1)
    = calculate_cost expF net weights trip_list dispersion simulation_iteration
        links paths := by
  unfold calculate_cost
  cases hcb : calc_from_bases expF net weights trip_list dispersion simulation_iteration
      (links.map (fun l => l.base)) (paths.map (fun p => p.base)) with
  | none => rfl
  | some r =>
    have hb := calc_from_bases_bases expF net weights trip_list dispersion
      simulation_iteration _ _ r hcb
    simp only [Option.some_bind]
    rw [hb.1, hb.2]
    exact hcb

/-! ## Claim C10: `reset` keeps the record but empties the path set -/

/-- Claim C10: after `reset()` the `PathSet` record survives with its other
fields (direction, preferred time, trip attributes) unchanged, `path_found()`
is false and `num_paths()` is 0 — observably the same as a freshly
constructed `PathSet` (whose `pathdict` is an empty dict with the same
length 0) — even though `reset` rebinds `pathdict` to an empty Python list
rather than an empty dict. -/
theorem reset_keeps_record_and_empties_paths (p : PathSetRec) :
    path_found (reset p) = false
    ∧ num_paths (reset p) = 0
    ∧ (reset p).direction = p.direction
    ∧ (reset p).pref_time_min = p.pref_time_min
    ∧ (reset p).trip_list = p.trip_list
    ∧ (reset p).pathdict = PyPathDict.pylist []
    ∧ (∀ t : TripListDict,
        (PathSet_init t).all (fun q =>
          (path_found q == path_found (reset p)) && (num_paths q == num_paths (reset p))))
    ∧ (∀ entries, (reset p).pathdict ≠ PyPathDict.dict entries) := by
  refine ⟨rfl, rfl, rfl, rfl, rfl, rfl, ?_, ?_⟩
  · intro t
    unfold PathSet_init
    by_cases h1 : t.time_target == "arrival"
    · simp [h1, path_found, num_paths, reset, PyPathDict.len]
    · by_cases h2 : t.time_target == "departure"
      · simp [h1, h2, path_found, num_paths, reset, PyPathDict.len]
      · simp [h1, h2]
  · intro entries h
    simp [reset] at h

/-- Witness for claim C10 on a concrete one-path record. -/
theorem reset_keeps_record_witness :
    path_found (reset pathset_example) = false
    ∧ num_paths (reset pathset_example) = 0
    ∧ path_found pathset_example = true
    ∧ num_paths pathset_example = 1 :=
  ⟨(reset_keeps_record_and_empties_paths pathset_example).1,
    (reset_keeps_record_and_empties_paths pathset_example).2.1,
    by decide, by decide⟩

/-! ## Claim C5: a single-path trip has probability 1 -/

/-- Claim C5: for a traveler-trip with exactly one path of cost `c`,
`calculate_cost` gives that path probability exactly 1 and the trip's logsum
equals `exp(-dispersion * cost)`. -/
theorem single_path_probability_one (dispersion : ℝ) (c : ℚ) :
    trip_logsum Real.exp dispersion [c] = Real.exp (-dispersion * c)
    ∧ pf_probability Real.exp dispersion [c] c = 1 := by
  constructor
  · simp [trip_logsum, logsum_component]
  · unfold pf_probability trip_logsum
    simp only [List.map_cons, List.map_nil, List.sum_cons, List.sum_nil, add_zero]
    exact div_self (Real.exp_ne_zero _)

/-! ## Claim C6: two-path trips rank probabilities by cost -/

/-- Claim C6: for a traveler-trip with exactly two paths of costs `c1 < c2`
and any positive dispersion, the cheaper path gets the larger probability and
the two probabilities sum to 1. -/
theorem two_path_probability_order (dispersion : ℝ) (c1 c2 : ℚ)
    (hd : 0 < dispersion) (hc : c1 < c2) :
    pf_probability Real.exp dispersion [c1, c2] c2
        < pf_probability Real.exp dispersion [c1, c2] c1
    ∧ pf_probability Real.exp dispersion [c1, c2] c1
        + pf_probability Real.exp dispersion [c1, c2] c2 = 1 := by
  have hcast : (c1 : ℝ) < (c2 : ℝ) := by exact_mod_cast hc
  have harg : -1 * dispersion * (c2 : ℝ) < -1 * dispersion * (c1 : ℝ) := by nlinarith
  have hexp : Real.exp (-1 * dispersion * (c2 : ℝ)) < Real.exp (-1 * dispersion * (c1 : ℝ)) :=
    Real.exp_lt_exp.mpr harg
  have hsum : trip_logsum Real.exp dispersion [c1, c2]
      = Real.exp (-1 * dispersion * (c1 : ℝ)) + Real.exp (-1 * dispersion * (c2 : ℝ)) := by
    simp [trip_logsum, logsum_component]
  have hpos : 0 < trip_logsum Real.exp dispersion [c1, c2] := by
    rw [hsum]
    positivity
  constructor
  · unfold pf_probability
    exact div_lt_div_of_pos_right hexp hpos
  · unfold pf_probability
    rw [div_add_div_same, logsum_component, logsum_component, ← hsum]
    exact div_self (ne_of_gt hpos)

/-- Witness for claim C6 at dispersion 1 and costs 0 < 1. -/
theorem two_path_probability_order_witness :
    (0 : ℝ) < 1 ∧ (0 : ℚ) < 1
    ∧ (pf_probability Real.exp 1 [0, 1] 1 < pf_probability Real.exp 1 [0, 1] 0
        ∧ pf_probability Real.exp 1 [0, 1] 0 + pf_probability Real.exp 1 [0, 1] 1 = 1) :=
  ⟨one_pos, by decide, two_path_probability_order 1 0 1 one_pos (by decide)⟩

/-! ## Claim C2: the `preferred_delay_min` variable (corrected) -/

/-- Counterexample to claim C2 as stated: for an egress link with `arrival`
time target, preferred arrival 100 min and path arrival (B time) 90 min, the
source computes `preferred - scheduled = 10`, not
`scheduled - preferred = -10` as the claim says. -/
theorem preferred_delay_arrival_egress_counterexample :
    resolve_preferred_delay none ("preferred_delay_min") ("egress") ("arrival")
        100 90 0 0 = some 10
    ∧ (10 : ℚ) ≠ 90 - 100 := by
  constructor
  · norm_num [resolve_preferred_delay]
    decide
  · norm_num

/-- Claim C2 amended: for `preferred_delay_min` rows, with `arrival` time
target the egress value is the *preferred arrival time minus the link's
arrival time* (not the reverse) and the access value is 0; with `departure`
time target the access value is the link's departure time minus the preferred
departure time and the egress value is 0. -/
theorem preferred_delay_resolution (v : Option ℚ)
    (weight_name linkmode time_target : String)
    (pref_arrival pax_B pax_A pref_departure : ℚ)
    (hw : weight_name = "preferred_delay_min") :
    (linkmode = "egress" → time_target = "arrival" →
      resolve_preferred_delay v weight_name linkmode time_target
        pref_arrival pax_B pax_A pref_departure = some (pref_arrival - pax_B))
    ∧ (linkmode = "access" → time_target = "arrival" →
      resolve_preferred_delay v weight_name linkmode time_target
        pref_arrival pax_B pax_A pref_departure = some 0)
    ∧ (linkmode = "access" → time_target = "departure" →
      resolve_preferred_delay v weight_name linkmode time_target
        pref_arrival pax_B pax_A pref_departure = some (pax_A - pref_departure))
    ∧ (linkmode = "egress" → time_target = "departure" →
      resolve_preferred_delay v weight_name linkmode time_target
        pref_arrival pax_B pax_A pref_departure = some 0) := by
  subst hw
  refine ⟨fun hl ht => ?_, fun hl ht => ?_, fun hl ht => ?_, fun hl ht => ?_⟩ <;>
    subst hl <;> subst ht <;> simp [resolve_preferred_delay]

/-- Witness for the amended claim C2 at concrete times. -/
theorem preferred_delay_resolution_witness :
    ("preferred_delay_min" : String) = "preferred_delay_min"
    ∧ ("egress" : String) = "egress"
    ∧ ("arrival" : String) = "arrival"
    ∧ resolve_preferred_delay none ("preferred_delay_min") ("egress") ("arrival")
        480 465 400 0 = some (480 - 465) :=
  ⟨rfl, rfl, rfl,
    (preferred_delay_resolution none ("preferred_delay_min") ("egress") ("arrival")
      480 465 400 0 rfl).1 rfl rfl⟩

/-! ## Claim C3: flagged links get the huge penalty per weight row (corrected) -/

/-- Counterexample to claim C3 as stated: a capacity-bumped link (bump
iteration 0) matched by two weight rows gets link cost
`HUGE_COST + HUGE_COST = 19998` in the output link table, not `HUGE_COST`:
the override is applied per weight row and the rows are then summed. -/
theorem flagged_link_cost_counterexample :
    (0 : Int) ≤ cost_row_bumped_a.bump_iter
    ∧ (0 : Int) ≤ cost_row_bumped_b.bump_iter
    ∧ link_cost [cost_row_bumped_a, cost_row_bumped_b] (1, 0, 0) = some 19998
    ∧ link_cost [cost_row_bumped_a, cost_row_bumped_b] (1, 0, 0) ≠ some HUGE_COST := by
  refine ⟨by decide, by decide, ?_, ?_⟩
  · norm_num [link_cost, link_key, sim_cost, cost_row_bumped_a, cost_row_bumped_b,
      List.filter, HUGE_COST]
  · norm_num [link_cost, link_key, sim_cost, cost_row_bumped_a, cost_row_bumped_b,
      List.filter, HUGE_COST]

/-- Helper: a sum of per-weight-row costs that are all `HUGE_COST`. -/
theorem sum_map_sim_cost_const (rs : List CostRow)
    (h : ∀ r ∈ rs, sim_cost r = HUGE_COST) :
    (rs.map sim_cost).sum = rs.length * HUGE_COST := by
  induction rs with
  | nil => simp
  | cons r rs ih =>
    simp only [List.map_cons, List.sum_cons, List.length_cons]
    rw [h r (List.mem_cons_self r rs), ih (fun x hx => h x (List.mem_cons_of_mem r hx))]
    push_cast
    ring

/-- Claim C3 amended: every per-weight-row cost of a missed-transfer or
capacity-bumped link is forced to `HUGE_COST` before summation, so the link's
cost in the output link table equals `HUGE_COST` times the number of weight
rows matched to that link (which is `HUGE_COST` itself exactly when one
weight row matches). -/
theorem flagged_link_cost (rows : List CostRow) (k : ℕ × ℕ × ℕ)
    (h : ∀ r ∈ rows, link_key r = k → (r.missed_xfer = 1 ∨ 0 ≤ r.bump_iter))
    (hne : (rows.filter (fun r => link_key r == k)).isEmpty = false) :
    link_cost rows k
      = some ((rows.filter (fun r => link_key r == k)).length * HUGE_COST) := by
  simp only [link_cost, hne, Bool.false_eq_true, if_false]
  congr 1
  apply sum_map_sim_cost_const
  intro r hr
  have hmem := List.mem_filter.mp hr
  have hk : link_key r = k := by simpa using hmem.2
  rcases h r hmem.1 hk with hx | hb
  · simp [sim_cost, hx]
  · simp [sim_cost, hb]

/-- Witness for the amended claim C3: one missed-transfer row and one bumped
row on the same link. -/
theorem flagged_link_cost_witness :
    ([cost_row_missed, cost_row_bumped_c].filter
          (fun r => link_key r == (7, 1, 2))).isEmpty = false
    ∧ link_cost [cost_row_missed, cost_row_bumped_c] (7, 1, 2)
        = some (([cost_row_missed, cost_row_bumped_c].filter
            (fun r => link_key r == (7, 1, 2))).length * HUGE_COST) :=
  ⟨by decide, flagged_link_cost _ _ (by decide) (by decide)⟩

/-! ## Claim C4: zero-length transfer variables -/

/-- Helper: folding a name-matched column assignment over a column list
resolves to the lookup of the matched name (last write wins, and every write
for the same name writes the same value), or keeps the accumulator if no
column matches. -/
theorem foldl_name_lookup (f : String → Option ℚ) (wn : String) (cs : List String)
    (v : Option ℚ) :
    cs.foldl (fun v c => if wn == c then f c else v) v = if wn ∈ cs then f wn else v := by
  induction cs generalizing v with
  | nil => simp
  | cons c cs ih =>
    simp only [List.foldl_cons, ih]
    by_cases h : wn = c
    · subst h
      simp [ite_self]
    · simp [h, List.mem_cons, beq_iff_eq]

/-- Claim C4: on a zero-length transfer link (same origin and destination
stop), every resolved variable value is 0 except `transfer_penalty`, which
keeps a value resolved from the transfer-impedance table and otherwise
defaults to 1.0. -/
theorem zero_length_transfer_vars (tbl : TransferTable) (weight_name : String)
    (A B : Int) (link_time : ℚ) (hAB : A = B) :
    (weight_name ≠ "transfer_penalty" →
      resolve_transfer_var tbl weight_name A B link_time = some 0)
    ∧ (weight_name = "transfer_penalty" →
      resolve_transfer_var tbl weight_name A B link_time =
        some ((if ("transfer_penalty" : String) ∈ tbl.colNames then
                transfer_lookup tbl A B ("transfer_penalty")
              else none).getD 1)) := by
  subst hAB
  constructor
  · intro hw
    simp [resolve_transfer_var, hw]
  · intro hw
    subst hw
    simp only [resolve_transfer_var]
    rw [foldl_name_lookup (fun c => transfer_lookup tbl A A c)]
    by_cases hmem : ("transfer_penalty" : String) ∈ tbl.colNames
    · cases hlook : transfer_lookup tbl A A ("transfer_penalty") with
      | none => simp [hmem, hlook]
      | some x => simp [hmem, hlook]
    · simp [hmem]

/-- Witness for claim C4: a zero-length transfer with an unconfigured
`transfer_penalty` and a `walk_time_min` weight. -/
theorem zero_length_transfer_vars_witness :
    (7 : Int) = 7
    ∧ ("walk_time_min" : String) ≠ "transfer_penalty"
    ∧ resolve_transfer_var ⟨[], []⟩ ("walk_time_min") 7 7 3 = some 0
    ∧ resolve_transfer_var ⟨[], []⟩ ("transfer_penalty") 7 7 3 =
        some ((if ("transfer_penalty" : String) ∈ (⟨[], []⟩ : TransferTable).colNames then
                transfer_lookup ⟨[], []⟩ 7 7 ("transfer_penalty")
              else none).getD 1) := by
  refine ⟨rfl, by decide, ?_, ?_⟩
  · exact (zero_length_transfer_vars ⟨[], []⟩ ("walk_time_min") 7 7 3 rfl).1 (by decide)
  · exact (zero_length_transfer_vars ⟨[], []⟩ ("transfer_penalty") 7 7 3 rfl).2 rfl

/-! ## Claim C8: transit (in-vehicle) link variables -/

/-- Claim C8: for transit cost rows, `in_vehicle_time_min` is alight minus
board time, `wait_time_min` is board minus arrival-at-stop time,
`at_capacity` is 1 exactly when the overcap indicator is ≥ 0 and the traveler
is not a recorded lucky boarder (else 0), and `overcap` is the indicator
clipped below at 0. -/
theorem transit_link_vars (has_bump : Bool) (weight_name : String)
    (board alight paxA overcap boarded : ℚ) :
    (weight_name = "in_vehicle_time_min" →
      resolve_trip_var has_bump weight_name board alight paxA overcap boarded
        = some (alight - board))
    ∧ (weight_name = "wait_time_min" →
      resolve_trip_var has_bump weight_name board alight paxA overcap boarded
        = some (board - paxA))
    ∧ (weight_name = "at_capacity" →
      resolve_trip_var has_bump weight_name board alight paxA overcap boarded
        = some (if 0 ≤ overcap ∧ ¬(has_bump = true ∧ boarded = 1) then 1 else 0))
    ∧ (weight_name = "overcap" →
      resolve_trip_var has_bump weight_name board alight paxA overcap boarded
        = some (max 0 overcap)) := by
  refine ⟨fun hw => ?_, fun hw => ?_, fun hw => ?_, fun hw => ?_⟩ <;> subst hw
  · simp [resolve_trip_var]
  · simp [resolve_trip_var]
  · have hind : at_capacity_indicator has_bump overcap boarded
        = if 0 ≤ overcap ∧ ¬(has_bump = true ∧ boarded = 1) then 1 else 0 := by
      cases has_bump with
      | false => simp [at_capacity_indicator]
      | true => simp [at_capacity_indicator]
    simp [resolve_trip_var, hind]
  · by_cases hneg : overcap < 0
    · simp [resolve_trip_var, hneg, max_eq_left (le_of_lt hneg)]
    · simp [resolve_trip_var, hneg, max_eq_right (le_of_not_lt hneg)]

/-- Witness for claim C8 at concrete values (board 480, alight 495, arrival
at stop 474, overcap -2, no recorded boarder column). -/
theorem transit_link_vars_witness :
    ("in_vehicle_time_min" : String) = "in_vehicle_time_min"
    ∧ ("at_capacity" : String) = "at_capacity"
    ∧ ("overcap" : String) = "overcap"
    ∧ resolve_trip_var false ("in_vehicle_time_min") 480 495 474 (-2) 0
        = some (495 - 480)
    ∧ resolve_trip_var false ("at_capacity") 480 495 474 (-2) 0
        = some (if 0 ≤ (-2 : ℚ) ∧ ¬(false = true ∧ (0 : ℚ) = 1) then 1 else 0)
    ∧ resolve_trip_var false ("overcap") 480 495 474 (-2) 0 = some (max 0 (-2)) :=
  ⟨rfl, rfl, rfl,
    (transit_link_vars false ("in_vehicle_time_min") 480 495 474 (-2) 0).1 rfl,
    (transit_link_vars false ("at_capacity") 480 495 474 (-2) 0).2.2.1 rfl,
    (transit_link_vars false ("overcap") 480 495 474 (-2) 0).2.2.2 rfl⟩
